import Mathlib

/-!
Verification of the model-selection layer of `my_model_selectors.py`
(AIND-Term1-Recognizer).

Shallow embedding conventions:
* Feature matrices are `List (List ℚ)` (one inner list per time-step row);
  Python floats are modelled as `ℚ`.
* The external HMM trainer (`GaussianHMM(...).fit`) is an oracle
  `fit : ℕ → ℕ → Data → Option Model` taking the `random_state` seed, the
  state count `n_components` and the training data; `none` models a raised
  training exception (the trainer is deterministic given a fixed seed, so it
  is a function).  The scorer (`model.score(X, lengths)`) is an oracle
  `score : Model → Data → Option ℚ`; `none` models a raised scoring
  exception.  `math.log` on the float result of `len` is an oracle
  `mlog : ℕ → ℚ` (its numeric value is irrelevant to every claim).
* Python exceptions swallowed by `try/except: pass` are modelled by
  `Option`-propagation: any `none` inside a candidate's computation makes
  the whole candidate `none` ("skipped").
* `float("nan")` (from `np.mean([])`) and `float("-inf")` are modelled as
  `Option ℚ`: `npMean [] = none` (NaN) and the initial `best_score` is
  `none` (-inf).  IEEE comparison gives `nan > x = False` for every `x`
  and `r > -inf = True` for every real `r`; `cvGt` mirrors exactly that.
  The only place this leaves a one-word-catalog corner unmodelled is
  `np.mean` over an empty other-word list in SelectorDIC (the deployed
  catalogs always hold at least two words).
-/

/-- The concatenated feature matrix plus the per-instance length vector,
one entry of `all_word_Xlengths` (`(self.X, self.lengths)`). -/
structure Data where
  X : List (List ℚ)
  lengths : List ℕ
deriving DecidableEq, Repr

/-- Row count of the feature matrix (`X.shape[0]`). -/
def Data.rows (d : Data) : ℕ := d.X.length

/-- Feature dimensionality (`X.shape[1]`). -/
def Data.cols (d : Data) : ℕ := (d.X.headD []).length

/-- A fitted `GaussianHMM`, opaque beyond the attributes the selectors
read: `n_components` (the state count it was created with), `n_features`
(set by `fit` from the training matrix), and a tag distinguishing
distinct fitted objects (e.g. fold-trained versus full-data-trained). -/
structure Model where
  nStates : ℕ
  nFeatures : ℕ
  tag : ℕ
deriving DecidableEq, Repr

/-- One word's recorded instance sequences (`all_word_sequences[word]`):
an ordered list of instances, each an ordered list of feature rows. -/
abbrev Sequences := List (List (List ℚ))

/-- Constructor state of a `ModelSelector` (`__init__`): the two catalogs,
the target word and the hyperparameters.  Catalogs are association lists
in dict insertion order. -/
structure SelectorCfg where
  words : List (String × Sequences)
  hwords : List (String × Data)
  this_word : String
  n_constant : ℕ := 3
  min_n : ℕ := 2
  max_n : ℕ := 10
  random_state : ℕ := 14
deriving DecidableEq, Repr

/-- Reads `self.sequences = all_word_sequences[this_word]` (the constructor
requires the key to be present; absent keys are outside every claim). -/
def SelectorCfg.sequences (cfg : SelectorCfg) : Sequences :=
  ((cfg.words.find? (fun p => p.1 = cfg.this_word)).map Prod.snd).getD []

/-- Reads `self.X, self.lengths = all_word_Xlengths[this_word]`. -/
def SelectorCfg.selfData (cfg : SelectorCfg) : Data :=
  ((cfg.hwords.find? (fun p => p.1 = cfg.this_word)).map Prod.snd).getD ⟨[], []⟩

/-- The trainer oracle type: seed → n_components → training data →
fitted model, `none` on a raised training failure. -/
abbrev FitO := ℕ → ℕ → Data → Option Model

/-- The scorer oracle type: model → data → log-likelihood, `none` on a
raised scoring failure. -/
abbrev ScoreO := Model → Data → Option ℚ

/-- Embeds `ModelSelector.base_model(num_states)`: train on the word's full data
with the configured seed; `try/except` converts a trainer failure into the
`None` sentinel, here `none`. -/
def base_model (fit : FitO) (cfg : SelectorCfg) (num_states : ℕ) : Option Model :=
  fit cfg.random_state num_states cfg.selfData

/-- Embeds `range(self.min_n_components, self.max_n_components + 1)`. -/
def candidateRange (cfg : SelectorCfg) : List ℕ :=
  List.range' cfg.min_n (cfg.max_n + 1 - cfg.min_n)

/-- Embeds `SelectorConstant.select()`. -/
def selectConstant (fit : FitO) (cfg : SelectorCfg) : Option Model :=
  base_model fit cfg cfg.n_constant

/-- Mean of a list of floats (`np.mean`); the empty mean is NaN, modelled `none`. -/
def npMean (l : List ℚ) : Option ℚ :=
  if l = [] then none else some (l.sum / l.length)

/-- Embeds `np.argmin` over a nonempty list: index of the first minimum. -/
def idxMinFirst (l : List ℚ) : ℕ :=
  (List.range l.length).foldl
    (fun best i => if l.getD i 0 < l.getD best 0 then i else best) 0

/-- Embeds `np.argmax` over a nonempty list: index of the first maximum. -/
def idxMaxFirst (l : List ℚ) : ℕ :=
  (List.range l.length).foldl
    (fun best i => if l.getD best 0 < l.getD i 0 then i else best) 0

/-- The body of SelectorBIC's per-candidate `try` block: train, score the
full data, and compute `BIC = -2*logL + p*log(N)` with
`p = states**2 + 2*states*model.n_features - 1` and `N = self.X.shape[0]`.
Any exception (`none`) skips the candidate. -/
def bicCandidate (fit : FitO) (score : ScoreO) (mlog : ℕ → ℚ)
    (cfg : SelectorCfg) (states : ℕ) : Option ℚ :=
  match base_model fit cfg states with
  | none => none
  | some m =>
    match score m cfg.selfData with
    | none => none
    | some logL =>
      let p : ℚ := (states : ℚ) ^ 2 + 2 * (states : ℚ) * (m.nFeatures : ℚ) - 1
      some (-2 * logL + p * mlog cfg.selfData.rows)

/-- Embeds `SelectorBIC.select()`: collect the successful candidates' BIC scores
in ascending-`n` order, take `np.argmin(bic_scores) if bic_scores else
n_constant` as `best_state`, and return `base_model(best_state + 2)`. -/
def selectBIC (fit : FitO) (score : ScoreO) (mlog : ℕ → ℚ)
    (cfg : SelectorCfg) : Option Model :=
  let bic_scores := (candidateRange cfg).filterMap (bicCandidate fit score mlog cfg)
  let best_state := if bic_scores = [] then cfg.n_constant else idxMinFirst bic_scores
  base_model fit cfg (best_state + 2)

/-- Reads `self.hwords.items()` restricted to `word != self.this_word`, in dict
insertion order. -/
def otherWords (cfg : SelectorCfg) : List (String × Data) :=
  cfg.hwords.filter (fun p => p.1 ≠ cfg.this_word)

/-- Score each element, failing as a whole if any single score raises
(the loop in SelectorDIC runs inside one `try`). -/
def scoreAll (score : ScoreO) (m : Model) : List (String × Data) → Option (List ℚ)
  | [] => some []
  | p :: rest =>
    match score m p.2 with
    | none => none
    | some s => (scoreAll score m rest).map (fun l => s :: l)

/-- The body of SelectorDIC's per-candidate `try` block: train, score every
other word's full data, then `DIC = model.score(self.X, self.lengths) -
np.mean(other_words_scores)`.  Any raised exception skips the whole
candidate. -/
def dicCandidate (fit : FitO) (score : ScoreO) (cfg : SelectorCfg)
    (states : ℕ) : Option ℚ :=
  match base_model fit cfg states with
  | none => none
  | some m =>
    match scoreAll score m (otherWords cfg) with
    | none => none
    | some others =>
      match score m cfg.selfData with
      | none => none
      | some Lself =>
        match npMean others with
        | none => none
        | some avg => some (Lself - avg)

/-- Embeds `SelectorDIC.select()`: same shape as BIC with `np.argmax`. -/
def selectDIC (fit : FitO) (score : ScoreO) (cfg : SelectorCfg) : Option Model :=
  let dic_scores := (candidateRange cfg).filterMap (dicCandidate fit score cfg)
  let best_state := if dic_scores = [] then cfg.n_constant else idxMaxFirst dic_scores
  base_model fit cfg (best_state + 2)

/-- Embeds `combine_sequences(split_index_list, sequences)` from `asl_utils`:
concatenate the selected instances' rows and collect their lengths. -/
def combine_sequences (idx : List ℕ) (seqs : Sequences) : Data :=
  { X := (idx.filterMap (fun i => seqs.get? i)).flatten,
    lengths := idx.filterMap (fun i => (seqs.get? i).map List.length) }

/-- sklearn `KFold(n_splits=k).split` fold sizes over `n` samples: the
first `n % k` folds get one extra sample. -/
def foldSizes (k n : ℕ) : List ℕ :=
  (List.range k).map (fun i => n / k + if i < n % k then 1 else 0)

/-- Start offsets of consecutive test folds. -/
def foldStarts (k n : ℕ) : List ℕ :=
  (List.range k).map (fun i => (foldSizes k n).take i |>.sum)

/-- Embeds `KFold(n_splits=k).split(range(n))` as a list of
`(train_index, test_index)` pairs: test folds are consecutive blocks,
train indices the ordered complement. -/
def kfold (k n : ℕ) : List (List ℕ × List ℕ) :=
  (List.range k).map (fun i =>
    let start := (foldSizes k n).take i |>.sum
    let sz := (foldSizes k n).getD i 0
    let test := List.range' start sz
    ((List.range n).filter (fun j => j ∉ test), test))

/-- The `log_likelihood` list built by one fold's `try` block: empty when
training or scoring raised, a singleton otherwise (the list is re-created
inside the fold loop, so it never spans folds). -/
def foldLL (fit : FitO) (score : ScoreO) (seed n : ℕ) (seqs : Sequences)
    (fold : List ℕ × List ℕ) : List ℚ :=
  match fit seed n (combine_sequences fold.1 seqs) with
  | none => []
  | some m =>
    match score m (combine_sequences fold.2 seqs) with
    | none => []
    | some s => [s]

/-- The model `_model` names after one fold's `try` block: the freshly
fitted model when `fit` succeeded, otherwise the stale previous binding. -/
def foldModel (fit : FitO) (seed n : ℕ) (seqs : Sequences)
    (fold : List ℕ × List ℕ) (prev : Option Model) : Option Model :=
  match fit seed n (combine_sequences fold.1 seqs) with
  | none => prev
  | some m => some m

/-- Mutable locals of `SelectorCV.select`: `best_score` (`none` is the
initial `float("-inf")`), `best_model`, and the latest `_model` binding. -/
structure CVState where
  best_score : Option ℚ
  best_model : Option Model
  lastModel : Option Model
deriving DecidableEq, Repr

/-- Comparison `np.mean(log_likelihood) > best_score` under IEEE semantics: a NaN
mean (`none`) never compares greater; any real beats `-inf` (`none`). -/
def cvGt (mean best : Option ℚ) : Bool :=
  match mean, best with
  | none, _ => false
  | some _, none => true
  | some x, some y => decide (y < x)

/-- One iteration of SelectorCV's fold loop. -/
def cvFoldStep (fit : FitO) (score : ScoreO) (seed n : ℕ) (seqs : Sequences)
    (st : CVState) (fold : List ℕ × List ℕ) : CVState :=
  let ll := foldLL fit score seed n seqs fold
  let last := foldModel fit seed n seqs fold st.lastModel
  if cvGt (npMean ll) st.best_score then
    { best_score := npMean ll, best_model := last, lastModel := last }
  else
    { st with lastModel := last }

/-- One iteration of SelectorCV's candidate loop: `continue` when the word
has at most one instance sequence, otherwise run every KFold split with
`n_splits = min(3, len(self.sequences))`. -/
def cvCandidateStep (fit : FitO) (score : ScoreO) (seed : ℕ)
    (seqs : Sequences) (st : CVState) (n : ℕ) : CVState :=
  if seqs.length ≤ 1 then st
  else
    (kfold (min 3 seqs.length) seqs.length).foldl
      (cvFoldStep fit score seed n seqs) st

/-- Embeds `SelectorCV.select()`: run the candidate loop, then
`if not best_model: best_model = self.base_model(self.n_constant)`. -/
def selectCV (fit : FitO) (score : ScoreO) (cfg : SelectorCfg) : Option Model :=
  let final := (candidateRange cfg).foldl
    (cvCandidateStep fit score cfg.random_state cfg.sequences)
    ⟨none, none, none⟩
  match final.best_model with
  | none => base_model fit cfg cfg.n_constant
  | some m => some m

/-- State-threading rendering of SelectorBIC's candidate loop: each
iteration reads the selector/catalog state (second component) and passes
it through unchanged — the loop body of the source contains no assignment
to `self` fields or to catalog entries. -/
def bicStepSt (fit : FitO) (score : ScoreO) (mlog : ℕ → ℚ)
    (acc : List ℚ × SelectorCfg) (states : ℕ) : List ℚ × SelectorCfg :=
  ((match bicCandidate fit score mlog acc.2 states with
    | none => acc.1
    | some b => acc.1 ++ [b]), acc.2)

/-- State-threading rendering of `SelectorBIC.select()`, returning the
selector/catalog state alongside the chosen model. -/
def selectBICSt (fit : FitO) (score : ScoreO) (mlog : ℕ → ℚ)
    (cfg : SelectorCfg) : Option Model × SelectorCfg :=
  let r := (candidateRange cfg).foldl (bicStepSt fit score mlog) ([], cfg)
  let best_state := if r.1 = [] then r.2.n_constant else idxMinFirst r.1
  (base_model fit r.2 (best_state + 2), r.2)

/-- State-threading rendering of SelectorDIC's candidate loop. -/
def dicStepSt (fit : FitO) (score : ScoreO)
    (acc : List ℚ × SelectorCfg) (states : ℕ) : List ℚ × SelectorCfg :=
  ((match dicCandidate fit score acc.2 states with
    | none => acc.1
    | some b => acc.1 ++ [b]), acc.2)

/-- State-threading rendering of `SelectorDIC.select()`. -/
def selectDICSt (fit : FitO) (score : ScoreO)
    (cfg : SelectorCfg) : Option Model × SelectorCfg :=
  let r := (candidateRange cfg).foldl (dicStepSt fit score) ([], cfg)
  let best_state := if r.1 = [] then r.2.n_constant else idxMaxFirst r.1
  (base_model fit r.2 (best_state + 2), r.2)

/-- State-threading rendering of SelectorCV's candidate loop. -/
def cvStepSt (fit : FitO) (score : ScoreO) (seed : ℕ)
    (acc : CVState × SelectorCfg) (n : ℕ) : CVState × SelectorCfg :=
  (cvCandidateStep fit score seed acc.2.sequences acc.1 n, acc.2)

/-- State-threading rendering of `SelectorCV.select()`. -/
def selectCVSt (fit : FitO) (score : ScoreO)
    (cfg : SelectorCfg) : Option Model × SelectorCfg :=
  let r := (candidateRange cfg).foldl (cvStepSt fit score cfg.random_state)
    (⟨none, none, none⟩, cfg)
  match r.1.best_model with
  | none => (base_model fit r.2 r.2.n_constant, r.2)
  | some m => (some m, r.2)

/-- State-threading rendering of `SelectorConstant.select()`. -/
def selectConstantSt (fit : FitO) (cfg : SelectorCfg) : Option Model × SelectorCfg :=
  (base_model fit cfg cfg.n_constant, cfg)

/-! Concrete fixtures used by counterexamples and witnesses.  Oracles are
small total functions standing for particular (deterministic, seeded)
trainer/scorer behaviours the external collaborators are permitted to
exhibit. -/

/-- A scorer that always returns log-likelihood 0. -/
def scoreZero : ScoreO := fun _ _ => some 0

/-- A log oracle that returns 0 everywhere. -/
def mlogZero : ℕ → ℚ := fun _ => 0

/-- A two-instance, one-feature data set: rows `[0]` and `[1]`. -/
def dataTwo : Data := ⟨[[0], [1]], [1, 1]⟩

/-- Trainer succeeding exactly for `n ≤ 3`, recording `n` and the data's
feature dimensionality. -/
def fitC1 : FitO := fun _ n d => if n ≤ 3 then some ⟨n, d.cols, 0⟩ else none

/-- Selector configuration with candidate range `[3, 3]`. -/
def cfgC1 : SelectorCfg :=
  { words := [("BOOK", [[[0]], [[1]]])], hwords := [("BOOK", dataTwo)],
    this_word := "BOOK", n_constant := 3, min_n := 3, max_n := 3 }

/-- Trainer for C2: always succeeds, tagging the model with 1 exactly when
the training matrix is `[[1]]` (so fold-trained models are distinguishable). -/
def fitC2 : FitO := fun _ n d => some ⟨n, 1, if d.X = [[(1 : ℚ)]] then 1 else 0⟩

/-- Scorer for C2: a 2-state model scores 10 on test matrix `[[0]]` and 0
otherwise; any other model scores 6. -/
def scoreC2 : ScoreO := fun m d =>
  some (if m.nStates = 2 then (if d.X = [[(0 : ℚ)]] then 10 else 0) else 6)

/-- Selector configuration for C2: two instance sequences, range `[2, 3]`. -/
def cfgC2 : SelectorCfg :=
  { words := [("BOOK", [[[0]], [[1]]])], hwords := [("BOOK", dataTwo)],
    this_word := "BOOK", n_constant := 3, min_n := 2, max_n := 3 }

/-- Trainer succeeding only for `n = 5` (every candidate in `[2, 4]` fails). -/
def fitC3 : FitO := fun _ n _ => if n = 5 then some ⟨5, 1, 0⟩ else none

/-- Selector configuration with candidate range `[2, 4]` and `n_constant = 3`. -/
def cfgC3 : SelectorCfg :=
  { words := [("BOOK", [[[0]], [[1]]])], hwords := [("BOOK", dataTwo)],
    this_word := "BOOK", n_constant := 3, min_n := 2, max_n := 4 }

/-- Trainer that always succeeds, recording `n` and the feature count. -/
def fitC4 : FitO := fun _ n d => some ⟨n, d.cols, 0⟩

/-- Scorer returning constant log-likelihood 5. -/
def scoreC4 : ScoreO := fun _ _ => some 5

/-- Log oracle returning 1 everywhere. -/
def mlogC4 : ℕ → ℚ := fun _ => 1

/-- Default-range selector configuration over one word. -/
def cfgC4 : SelectorCfg :=
  { words := [("BOOK", [[[0]], [[1]]])], hwords := [("BOOK", dataTwo)],
    this_word := "BOOK" }

/-- Scorer whose log-likelihood is `n_components * rows`. -/
def scoreC5 : ScoreO := fun m d => some ((m.nStates : ℚ) * (d.rows : ℚ))

/-- Two-word catalog configuration for DIC. -/
def cfgC5 : SelectorCfg :=
  { words := [("A", [[[0]], [[1]]]), ("B", [[[2]]])],
    hwords := [("A", dataTwo), ("B", ⟨[[2]], [1]⟩)], this_word := "A" }

/-- Trainer succeeding only on the full two-row matrix, so every one-row
fold training fails while the constant fallback succeeds. -/
def fitC6 : FitO := fun _ n d => if d.rows = 2 then some ⟨n, d.cols, 7⟩ else none

/-- Selector configuration for C6 with range `[2, 3]`. -/
def cfgC6 : SelectorCfg :=
  { words := [("W", [[[0]], [[1]]])], hwords := [("W", dataTwo)],
    this_word := "W", min_n := 2, max_n := 3 }

/-- Trainer that always succeeds (used on a single-instance word). -/
def fitC7a : FitO := fun _ n d => some ⟨n, d.cols, 0⟩

/-- Trainer succeeding only for `n = 3`, agreeing with `fitC7a` there. -/
def fitC7b : FitO := fun _ n d => if n = 3 then some ⟨n, d.cols, 0⟩ else none

/-- Selector configuration whose word has exactly one instance sequence. -/
def cfgC7 : SelectorCfg :=
  { words := [("ONE", [[[0]]])], hwords := [("ONE", ⟨[[0]], [1]⟩)],
    this_word := "ONE" }

/-- Trainer succeeding exactly for `n = 3`. -/
def fitC8 : FitO := fun _ n _ => if n = 3 then some ⟨3, 1, 0⟩ else none

/-- Selector configuration with candidate range `[3, 3]` and `n_constant = 3`. -/
def cfgC8 : SelectorCfg :=
  { words := [("BOOK", [[[0]], [[1]]])], hwords := [("BOOK", dataTwo)],
    this_word := "BOOK", n_constant := 3, min_n := 3, max_n := 3 }

/-- Auxiliary: a scoring failure on any single list element makes the
whole `scoreAll` fail (the DIC other-word loop runs inside one `try`). -/
theorem scoreAll_eq_none_of_mem (score : ScoreO) (m : Model)
    (l : List (String × Data)) (p : String × Data) (hp : p ∈ l)
    (hnone : score m p.2 = none) : scoreAll score m l = none := by
  induction l with
  | nil => cases hp
  | cons q rest ih =>
    rcases List.mem_cons.mp hp with h | h
    · subst h; simp [scoreAll, hnone]
    · unfold scoreAll
      cases hq : score m q.2 with
      | none => rfl
      | some s => simp [ih h]

/-- C1: for a word whose only successfully scored BIC candidate is
`n = 3` (`min_n = max_n = 3`), the claim requires the returned model to
have 3 states (the argmin index 0 mapped back to `min_n + 0`), but
`SelectorBIC.select` returns `base_model(argmin + 2)` — a model with 2
states.  `SelectorDIC.select` uses the same fixed `+ 2` offset. -/
theorem C1_bic_fixed_offset_counterexample :
    candidateRange cfgC1 = [3] ∧
    (bicCandidate fitC1 scoreZero mlogZero cfgC1 3).isSome = true ∧
    (selectBIC fitC1 scoreZero mlogZero cfgC1).map Model.nStates = some 2 := by
  refine ⟨by decide, by rfl, ?_⟩
  have hrange : candidateRange cfgC1 = [3] := by decide
  have hcand : bicCandidate fitC1 scoreZero mlogZero cfgC1 3 = some 0 := by
    simp [bicCandidate, base_model, fitC1, scoreZero, mlogZero, cfgC1,
      SelectorCfg.selfData, dataTwo, Data.cols, Data.rows]
  have hlist : (candidateRange cfgC1).filterMap
      (bicCandidate fitC1 scoreZero mlogZero cfgC1) = [0] := by
    rw [hrange]; simp [hcand]
  simp only [selectBIC, hlist]
  norm_num [idxMinFirst, base_model, fitC1, cfgC1, SelectorCfg.selfData,
    dataTwo, Data.cols]

/-- C2: the `log_likelihood` list is re-created inside the fold loop, so
no cross-fold average is ever formed.  With fold scores `[10, 0]` for
`n = 2` (average 5) and `[6, 6]` for `n = 3` (average 6), selection by
fold averages would pick an `n = 3` model, but `SelectorCV.select`
compares single-fold scores and returns the `n = 2` model of the fold
that scored 10. -/
theorem C2_cv_no_cross_fold_average_counterexample :
    npMean (((kfold 2 2).map
      (foldLL fitC2 scoreC2 cfgC2.random_state 2 cfgC2.sequences)).flatten) = some 5 ∧
    npMean (((kfold 2 2).map
      (foldLL fitC2 scoreC2 cfgC2.random_state 3 cfgC2.sequences)).flatten) = some 6 ∧
    (selectCV fitC2 scoreC2 cfgC2).map Model.nStates = some 2 := by
  refine ⟨?_, ?_, ?_⟩
  · have h : ((kfold 2 2).map
        (foldLL fitC2 scoreC2 cfgC2.random_state 2 cfgC2.sequences)).flatten
        = [10, 0] := by decide
    rw [h]; unfold npMean
    rw [if_neg (by simp)]
    norm_num
  · have h : ((kfold 2 2).map
        (foldLL fitC2 scoreC2 cfgC2.random_state 3 cfgC2.sequences)).flatten
        = [6, 6] := by decide
    rw [h]; unfold npMean
    rw [if_neg (by simp)]
    norm_num
  · have hk : kfold 2 2 = [([1], [0]), ([0], [1])] := by decide
    have hrange : candidateRange cfgC2 = [2, 3] := by decide
    have e1 : cvFoldStep fitC2 scoreC2 14 2 [[[0]], [[1]]] ⟨none, none, none⟩ ([1], [0])
        = ⟨some 10, some ⟨2, 1, 1⟩, some ⟨2, 1, 1⟩⟩ := by
      have hll : foldLL fitC2 scoreC2 14 2 [[[0]], [[1]]] ([1], [0]) = [10] := by decide
      have hfm : foldModel fitC2 14 2 [[[0]], [[1]]] ([1], [0]) none = some ⟨2, 1, 1⟩ := by
        decide
      simp only [cvFoldStep, hll, hfm]
      norm_num [npMean, cvGt]
    have e2 : cvFoldStep fitC2 scoreC2 14 2 [[[0]], [[1]]]
        ⟨some 10, some ⟨2, 1, 1⟩, some ⟨2, 1, 1⟩⟩ ([0], [1])
        = ⟨some 10, some ⟨2, 1, 1⟩, some ⟨2, 1, 0⟩⟩ := by
      have hll : foldLL fitC2 scoreC2 14 2 [[[0]], [[1]]] ([0], [1]) = [0] := by decide
      have hfm : foldModel fitC2 14 2 [[[0]], [[1]]] ([0], [1]) (some ⟨2, 1, 1⟩)
          = some ⟨2, 1, 0⟩ := by decide
      simp only [cvFoldStep, hll, hfm]
      norm_num [npMean, cvGt]
    have e3 : cvFoldStep fitC2 scoreC2 14 3 [[[0]], [[1]]]
        ⟨some 10, some ⟨2, 1, 1⟩, some ⟨2, 1, 0⟩⟩ ([1], [0])
        = ⟨some 10, some ⟨2, 1, 1⟩, some ⟨3, 1, 1⟩⟩ := by
      have hll : foldLL fitC2 scoreC2 14 3 [[[0]], [[1]]] ([1], [0]) = [6] := by decide
      have hfm : foldModel fitC2 14 3 [[[0]], [[1]]] ([1], [0]) (some ⟨2, 1, 0⟩)
          = some ⟨3, 1, 1⟩ := by decide
      simp only [cvFoldStep, hll, hfm]
      norm_num [npMean, cvGt]
    have e4 : cvFoldStep fitC2 scoreC2 14 3 [[[0]], [[1]]]
        ⟨some 10, some ⟨2, 1, 1⟩, some ⟨3, 1, 1⟩⟩ ([0], [1])
        = ⟨some 10, some ⟨2, 1, 1⟩, some ⟨3, 1, 0⟩⟩ := by
      have hll : foldLL fitC2 scoreC2 14 3 [[[0]], [[1]]] ([0], [1]) = [6] := by decide
      have hfm : foldModel fitC2 14 3 [[[0]], [[1]]] ([0], [1]) (some ⟨3, 1, 1⟩)
          = some ⟨3, 1, 0⟩ := by decide
      simp only [cvFoldStep, hll, hfm]
      norm_num [npMean, cvGt]
    have hstep2 : cvCandidateStep fitC2 scoreC2 14 [[[0]], [[1]]] ⟨none, none, none⟩ 2
        = ⟨some 10, some ⟨2, 1, 1⟩, some ⟨2, 1, 0⟩⟩ := by
      norm_num [cvCandidateStep, hk, e1, e2]
    have hstep3 : cvCandidateStep fitC2 scoreC2 14 [[[0]], [[1]]]
        ⟨some 10, some ⟨2, 1, 1⟩, some ⟨2, 1, 0⟩⟩ 3
        = ⟨some 10, some ⟨2, 1, 1⟩, some ⟨3, 1, 0⟩⟩ := by
      norm_num [cvCandidateStep, hk, e3, e4]
    have hseq : cfgC2.sequences = [[[0]], [[1]]] := rfl
    have hrs : cfgC2.random_state = 14 := rfl
    have hsel : selectCV fitC2 scoreC2 cfgC2 = some ⟨2, 1, 1⟩ := by
      simp only [selectCV, hrange, hseq, hrs, List.foldl_cons, List.foldl_nil,
        hstep2, hstep3]
    rw [hsel]; rfl

/-- C3: when every candidate in `[min_n, max_n] = [2, 4]` fails training,
`SelectorBIC.select` and `SelectorDIC.select` return
`base_model(n_constant + 2) = base_model(5)` — here a 5-state model —
while `base_model(n_constant) = base_model(3)` fails; only
`SelectorCV.select` falls back to `base_model(n_constant)` as claimed. -/
theorem C3_fallback_offset_counterexample :
    (∀ n ∈ candidateRange cfgC3, base_model fitC3 cfgC3 n = none) ∧
    base_model fitC3 cfgC3 cfgC3.n_constant = none ∧
    selectBIC fitC3 scoreZero mlogZero cfgC3 = some ⟨5, 1, 0⟩ ∧
    selectDIC fitC3 scoreZero cfgC3 = some ⟨5, 1, 0⟩ ∧
    selectCV fitC3 scoreZero cfgC3 = base_model fitC3 cfgC3 cfgC3.n_constant := by
  decide

/-- C8: a caller-visible failure (`None`) can occur without total
exhaustion: with `min_n = max_n = 3` the sole candidate trains and scores
successfully and the constant fallback `base_model(3)` would succeed, yet
`SelectorBIC.select` returns `base_model(argmin + 2) = base_model(2)`,
whose training fails, so the caller sees `None`. -/
theorem C8_visible_failure_without_exhaustion :
    (bicCandidate fitC8 scoreZero mlogZero cfgC8 3).isSome = true ∧
    (base_model fitC8 cfgC8 cfgC8.n_constant).isSome = true ∧
    selectBIC fitC8 scoreZero mlogZero cfgC8 = none := by
  refine ⟨by rfl, by rfl, ?_⟩
  have hrange : candidateRange cfgC8 = [3] := by decide
  have hcand : bicCandidate fitC8 scoreZero mlogZero cfgC8 3 = some 0 := by
    simp [bicCandidate, base_model, fitC8, scoreZero, mlogZero, cfgC8,
      SelectorCfg.selfData, dataTwo, Data.cols, Data.rows]
  have hlist : (candidateRange cfgC8).filterMap
      (bicCandidate fitC8 scoreZero mlogZero cfgC8) = [0] := by
    rw [hrange]; simp [hcand]
  simp only [selectBIC, hlist]
  norm_num [idxMinFirst, base_model, fitC8, cfgC8, SelectorCfg.selfData]

/-- C4: every successfully trained and scored BIC candidate `n` records
exactly `BIC(n) = -2*L + p*log(N)` with `p = n^2 + 2*n*d - 1` (`d` the
feature dimensionality recorded by the trainer) and `N` the total number
of feature rows across all of the word's instances (equal to
`self.X.shape[0]` by the catalog invariant). -/
theorem C4_bic_recorded_score_formula (fit : FitO) (score : ScoreO)
    (mlog : ℕ → ℚ) (cfg : SelectorCfg) (n : ℕ) (m : Model) (L : ℚ)
    (hm : base_model fit cfg n = some m)
    (hL : score m cfg.selfData = some L)
    (hd : m.nFeatures = cfg.selfData.cols)
    (hN : cfg.selfData.rows = cfg.selfData.lengths.sum) :
    bicCandidate fit score mlog cfg n =
      some (-2 * L +
        ((n : ℚ) ^ 2 + 2 * (n : ℚ) * (cfg.selfData.cols : ℚ) - 1) *
          mlog cfg.selfData.lengths.sum) := by
  simp only [bicCandidate, hm, hL, hd, hN]

/-- Witness for C4 at a concrete input: `n = 2`, `d = 1`, `L = 5`,
`N = 2`, `log` interpreted as the constant-1 oracle. -/
theorem C4_bic_recorded_score_formula_witness :
    bicCandidate fitC4 scoreC4 mlogC4 cfgC4 2 =
      some (-2 * 5 +
        ((2 : ℚ) ^ 2 + 2 * (2 : ℚ) * (cfgC4.selfData.cols : ℚ) - 1) *
          mlogC4 cfgC4.selfData.lengths.sum) :=
  C4_bic_recorded_score_formula fitC4 scoreC4 mlogC4 cfgC4 2 ⟨2, 1, 0⟩ 5
    (by decide) (by decide) (by decide) (by decide)

/-- C5: a DIC candidate that trains successfully records
`DIC(n) = L_self - mean(L_other)` where the mean ranges over every other
word of the word-matrix catalog; and a scoring failure on any single
other word skips the entire candidate. -/
theorem C5_dic_recorded_score_formula (fit : FitO) (score : ScoreO)
    (cfg : SelectorCfg) (n : ℕ) (m : Model)
    (hm : base_model fit cfg n = some m) :
    (∀ (os : List ℚ) (Lself : ℚ), scoreAll score m (otherWords cfg) = some os →
        os ≠ [] → score m cfg.selfData = some Lself →
        dicCandidate fit score cfg n = some (Lself - os.sum / (os.length : ℚ))) ∧
    (∀ p ∈ otherWords cfg, score m p.2 = none →
        dicCandidate fit score cfg n = none) := by
  constructor
  · intro os Lself hos hne hL
    simp only [dicCandidate, hm, hos, hL, npMean, if_neg hne]
  · intro p hp hnone
    simp only [dicCandidate, hm, scoreAll_eq_none_of_mem score m _ p hp hnone]

/-- Witness for C5 at a concrete input: the 2-state model on word "A"
scores 4 on its own data and 2 on the only other word "B", so the
recorded DIC is `4 - 2/1 = 2`. -/
theorem C5_dic_recorded_score_formula_witness :
    dicCandidate fitC4 scoreC5 cfgC5 2 = some 2 := by
  have h := (C5_dic_recorded_score_formula fitC4 scoreC5 cfgC5 2 ⟨2, 1, 0⟩
    (by decide)).1 [2] 4
    (by norm_num [scoreAll, otherWords, cfgC5, scoreC5, Data.rows])
    (by decide)
    (by norm_num [scoreC5, cfgC5, SelectorCfg.selfData, dataTwo, Data.rows])
  norm_num at h
  exact h

/-- Auxiliary: a fold whose `log_likelihood` list is empty (training or
scoring failed) leaves `best_score` and `best_model` unchanged — its NaN
mean never wins the comparison. -/
theorem cvFoldStep_empty (fit : FitO) (score : ScoreO) (seed n : ℕ)
    (seqs : Sequences) (st : CVState) (fold : List ℕ × List ℕ)
    (h : foldLL fit score seed n seqs fold = []) :
    (cvFoldStep fit score seed n seqs st fold).best_score = st.best_score ∧
    (cvFoldStep fit score seed n seqs st fold).best_model = st.best_model := by
  simp [cvFoldStep, h, npMean, cvGt]

/-- Auxiliary: a run of folds that all produce empty score lists preserves
`best_score` and `best_model`. -/
theorem cvFolds_empty (fit : FitO) (score : ScoreO) (seed n : ℕ)
    (seqs : Sequences) (folds : List (List ℕ × List ℕ)) (st : CVState)
    (h : ∀ fold ∈ folds, foldLL fit score seed n seqs fold = []) :
    (folds.foldl (cvFoldStep fit score seed n seqs) st).best_score = st.best_score ∧
    (folds.foldl (cvFoldStep fit score seed n seqs) st).best_model = st.best_model := by
  induction folds generalizing st with
  | nil => exact ⟨rfl, rfl⟩
  | cons f rest ih =>
    simp only [List.foldl_cons]
    have h1 := cvFoldStep_empty fit score seed n seqs st f (h f (by simp))
    have h2 := ih (cvFoldStep fit score seed n seqs st f)
      (fun fold hf => h fold (by simp [hf]))
    exact ⟨h2.1.trans h1.1, h2.2.trans h1.2⟩

/-- Auxiliary: a candidate `n` whose folds all fail preserves `best_score`
and `best_model` across its whole candidate-loop iteration. -/
theorem cvCandidateStep_empty (fit : FitO) (score : ScoreO) (seed : ℕ)
    (seqs : Sequences) (st : CVState) (n : ℕ)
    (h : ∀ fold ∈ kfold (min 3 seqs.length) seqs.length,
      foldLL fit score seed n seqs fold = []) :
    (cvCandidateStep fit score seed seqs st n).best_score = st.best_score ∧
    (cvCandidateStep fit score seed seqs st n).best_model = st.best_model := by
  unfold cvCandidateStep
  by_cases hle : seqs.length ≤ 1
  · simp [hle]
  · simp only [hle, if_false]
    exact cvFolds_empty fit score seed n seqs _ st h

/-- Auxiliary: if every fold of every candidate fails, the whole candidate
loop preserves `best_score` and `best_model`. -/
theorem cvLoop_empty (fit : FitO) (score : ScoreO) (seed : ℕ)
    (seqs : Sequences) (l : List ℕ) (st : CVState)
    (h : ∀ n ∈ l, ∀ fold ∈ kfold (min 3 seqs.length) seqs.length,
      foldLL fit score seed n seqs fold = []) :
    (l.foldl (cvCandidateStep fit score seed seqs) st).best_score = st.best_score ∧
    (l.foldl (cvCandidateStep fit score seed seqs) st).best_model = st.best_model := by
  induction l generalizing st with
  | nil => exact ⟨rfl, rfl⟩
  | cons n rest ih =>
    simp only [List.foldl_cons]
    have h1 := cvCandidateStep_empty fit score seed seqs st n (h n (by simp))
    have h2 := ih (cvCandidateStep fit score seed seqs st n)
      (fun k hk fold hf => h k (by simp [hk]) fold hf)
    exact ⟨h2.1.trans h1.1, h2.2.trans h1.2⟩

/-- C6: an empty fold-score set is treated as "no valid score": a fold
whose `log_likelihood` list is empty never updates `best_score` or
`best_model` (its NaN mean loses every comparison), and if every fold of
every candidate fails, `SelectorCV.select` returns exactly
`base_model(n_constant)`. -/
theorem C6_cv_empty_fold_guard (fit : FitO) (score : ScoreO)
    (cfg : SelectorCfg)
    (hall : ∀ n ∈ candidateRange cfg,
      ∀ fold ∈ kfold (min 3 cfg.sequences.length) cfg.sequences.length,
        foldLL fit score cfg.random_state n cfg.sequences fold = []) :
    selectCV fit score cfg = base_model fit cfg cfg.n_constant ∧
    (∀ (st : CVState) (n : ℕ) (fold : List ℕ × List ℕ),
        foldLL fit score cfg.random_state n cfg.sequences fold = [] →
        (cvFoldStep fit score cfg.random_state n cfg.sequences st fold).best_score
            = st.best_score ∧
        (cvFoldStep fit score cfg.random_state n cfg.sequences st fold).best_model
            = st.best_model) := by
  constructor
  · have hmain := cvLoop_empty fit score cfg.random_state cfg.sequences
      (candidateRange cfg) ⟨none, none, none⟩ hall
    simp only [selectCV]
    rw [hmain.2]
  · exact fun st n fold h =>
      cvFoldStep_empty fit score cfg.random_state n cfg.sequences st fold h

/-- Witness for C6 at a concrete input: a trainer that succeeds only on
the full two-row matrix makes every one-row fold training fail, and
`SelectorCV.select` returns the constant fallback model. -/
theorem C6_cv_empty_fold_guard_witness :
    selectCV fitC6 scoreZero cfgC6 = base_model fitC6 cfgC6 cfgC6.n_constant :=
  (C6_cv_empty_fold_guard fitC6 scoreZero cfgC6 (by decide)).1

/-- Auxiliary: with at most one instance sequence, every candidate-loop
iteration is skipped outright (`continue`). -/
theorem cvLoop_skip (fit : FitO) (score : ScoreO) (seed : ℕ)
    (seqs : Sequences) (h : seqs.length ≤ 1) (l : List ℕ) (st : CVState) :
    l.foldl (cvCandidateStep fit score seed seqs) st = st := by
  induction l generalizing st with
  | nil => rfl
  | cons n rest ih =>
    simp only [List.foldl_cons, cvCandidateStep, if_pos h]
    exact ih st

/-- C7: for a word with at most one recorded instance sequence,
`SelectorCV.select` runs no cross-validation logic — the result equals
the constant fallback `base_model(n_constant)` and is independent of how
the trainer and scorer behave anywhere except the single constant-state
training call on the word's full data. -/
theorem C7_cv_single_sequence_fallback (fit fit' : FitO)
    (score score' : ScoreO) (cfg : SelectorCfg)
    (h : cfg.sequences.length ≤ 1)
    (hagree : fit cfg.random_state cfg.n_constant cfg.selfData
      = fit' cfg.random_state cfg.n_constant cfg.selfData) :
    selectCV fit score cfg = base_model fit cfg cfg.n_constant ∧
    selectCV fit score cfg = selectCV fit' score' cfg := by
  have h1 : selectCV fit score cfg = base_model fit cfg cfg.n_constant := by
    simp only [selectCV]
    rw [cvLoop_skip fit score cfg.random_state cfg.sequences h]
  have h2 : selectCV fit' score' cfg = base_model fit' cfg cfg.n_constant := by
    simp only [selectCV]
    rw [cvLoop_skip fit' score' cfg.random_state cfg.sequences h]
  refine ⟨h1, ?_⟩
  rw [h1, h2]
  unfold base_model
  rw [hagree]

/-- Witness for C7 at a concrete input: a one-instance word with two
trainers that agree only on the constant-state full-data call. -/
theorem C7_cv_single_sequence_fallback_witness :
    selectCV fitC7a scoreZero cfgC7 = base_model fitC7a cfgC7 cfgC7.n_constant ∧
    selectCV fitC7a scoreZero cfgC7 = selectCV fitC7b scoreZero cfgC7 :=
  C7_cv_single_sequence_fallback fitC7a fitC7b scoreZero scoreZero cfgC7
    (by decide) (by decide)

/-- C9: selection is deterministic — two selector instances built from
identical inputs (same catalogs, word, hyperparameters and seed), run
against the same deterministic seeded trainer and scorer, choose models
with identical state counts, for every strategy. -/
theorem C9_select_deterministic (fit : FitO) (score : ScoreO) (mlog : ℕ → ℚ)
    (cfg cfg' : SelectorCfg) (h : cfg = cfg') :
    (selectBIC fit score mlog cfg).map Model.nStates
        = (selectBIC fit score mlog cfg').map Model.nStates ∧
    (selectDIC fit score cfg).map Model.nStates
        = (selectDIC fit score cfg').map Model.nStates ∧
    (selectCV fit score cfg).map Model.nStates
        = (selectCV fit score cfg').map Model.nStates ∧
    (selectConstant fit cfg).map Model.nStates
        = (selectConstant fit cfg').map Model.nStates := by
  subst h
  exact ⟨rfl, rfl, rfl, rfl⟩

/-- Witness for C9 at a concrete input: two identically-constructed
selector configurations. -/
theorem C9_select_deterministic_witness :
    (selectBIC fitC4 scoreC4 mlogC4 cfgC4).map Model.nStates
        = (selectBIC fitC4 scoreC4 mlogC4 cfgC4).map Model.nStates ∧
    (selectDIC fitC4 scoreC4 cfgC4).map Model.nStates
        = (selectDIC fitC4 scoreC4 cfgC4).map Model.nStates ∧
    (selectCV fitC4 scoreC4 cfgC4).map Model.nStates
        = (selectCV fitC4 scoreC4 cfgC4).map Model.nStates ∧
    (selectConstant fitC4 cfgC4).map Model.nStates
        = (selectConstant fitC4 cfgC4).map Model.nStates :=
  C9_select_deterministic fitC4 scoreC4 mlogC4 cfgC4 cfgC4 rfl

/-- Auxiliary: the BIC candidate loop threads the selector/catalog state
through unchanged and accumulates exactly the successful candidates'
scores in order. -/
theorem bicStSt_loop (fit : FitO) (score : ScoreO) (mlog : ℕ → ℚ)
    (cfg : SelectorCfg) (l : List ℕ) (acc : List ℚ) :
    l.foldl (bicStepSt fit score mlog) (acc, cfg)
      = (acc ++ l.filterMap (bicCandidate fit score mlog cfg), cfg) := by
  induction l generalizing acc with
  | nil => simp
  | cons n rest ih =>
    simp only [List.foldl_cons, List.filterMap_cons, bicStepSt]
    cases h : bicCandidate fit score mlog cfg n with
    | none => simpa [h] using ih acc
    | some b => simpa [h] using ih (acc ++ [b])

/-- Auxiliary: the DIC candidate loop threads the selector/catalog state
through unchanged and accumulates exactly the successful candidates'
scores in order. -/
theorem dicStSt_loop (fit : FitO) (score : ScoreO)
    (cfg : SelectorCfg) (l : List ℕ) (acc : List ℚ) :
    l.foldl (dicStepSt fit score) (acc, cfg)
      = (acc ++ l.filterMap (dicCandidate fit score cfg), cfg) := by
  induction l generalizing acc with
  | nil => simp
  | cons n rest ih =>
    simp only [List.foldl_cons, List.filterMap_cons, dicStepSt]
    cases h : dicCandidate fit score cfg n with
    | none => simpa [h] using ih acc
    | some b => simpa [h] using ih (acc ++ [b])

/-- Auxiliary: the CV candidate loop threads the selector/catalog state
through unchanged and computes the same fold state as the pure rendering. -/
theorem cvStSt_loop (fit : FitO) (score : ScoreO) (seed : ℕ)
    (cfg : SelectorCfg) (l : List ℕ) (st : CVState) :
    l.foldl (cvStepSt fit score seed) (st, cfg)
      = (l.foldl (cvCandidateStep fit score seed cfg.sequences) st, cfg) := by
  induction l generalizing st with
  | nil => rfl
  | cons n rest ih =>
    simp only [List.foldl_cons, cvStepSt]
    exact ih _

/-- C10: every `select()` strategy only reads the catalogs and the
selector configuration: the state-threading renderings return the
selector/catalog state unchanged, alongside exactly the model the pure
renderings choose. -/
theorem C10_select_preserves_state (fit : FitO) (score : ScoreO)
    (mlog : ℕ → ℚ) (cfg : SelectorCfg) :
    selectBICSt fit score mlog cfg = (selectBIC fit score mlog cfg, cfg) ∧
    selectDICSt fit score cfg = (selectDIC fit score cfg, cfg) ∧
    selectCVSt fit score cfg = (selectCV fit score cfg, cfg) ∧
    selectConstantSt fit cfg = (selectConstant fit cfg, cfg) := by
  refine ⟨?_, ?_, ?_, rfl⟩
  · simp only [selectBICSt, selectBIC,
      bicStSt_loop fit score mlog cfg (candidateRange cfg) []]
    simp
  · simp only [selectDICSt, selectDIC,
      dicStSt_loop fit score cfg (candidateRange cfg) []]
    simp
  · simp only [selectCVSt, selectCV,
      cvStSt_loop fit score cfg.random_state cfg (candidateRange cfg) ⟨none, none, none⟩]
    cases ((candidateRange cfg).foldl
        (cvCandidateStep fit score cfg.random_state cfg.sequences)
        ⟨none, none, none⟩).best_model with
    | none => rfl
    | some m => rfl
